import Mathlib

/-!
Verification development for `message_ix_models.tools.costs.projections`
(and the constants/collaborators it imports).

The pipeline entry point `get_cost_projections` validates a spatial
resolution, resolves a default reference region and threads the
configuration through five staged dataframe transforms; the final
formatter `create_message_inputs` reshapes a cost projection into the
MESSAGE investment-cost and fixed-O&M record layouts.

Dataframes are embedded as lists of records; numeric cost values are
embedded as rationals (the Python floats are IEEE doubles, and the spec
states its properties up to floating-point tolerance, so the exact
rational arithmetic is the intended idealisation).  Python code that can
raise (`pandas` lookups on empty selections, `pd.concat` of an empty list)
is embedded with `Option`: a `none` result models an uncaught exception.
-/

namespace CostsProj

/-- A row of the cost-projection dataframe `df_proj` consumed by
`create_message_inputs` (the columns the function actually reads:
`scenario_version, scenario, message_technology, region, year,
inv_cost, fix_cost`). -/
structure ProjRow where
  scenario_version : String
  scenario : String
  message_technology : String
  region : String
  year : Int
  inv_cost : ℚ
  fix_cost : ℚ
deriving Repr, DecidableEq

/-- A row of the investment-cost output `msg_inv`; the fields, in
declaration order, are exactly the reindexed column order
`scenario_version, scenario, node_loc, technology, year_vtg, value, unit`. -/
structure InvRow where
  scenario_version : String
  scenario : String
  node_loc : String
  technology : String
  year_vtg : Int
  value : ℚ
  unit : String
deriving Repr, DecidableEq

/-- A row of the fixed-O&M output `msg_fom`; the fields, in declaration
order, are exactly the reindexed column order `scenario_version, scenario,
node_loc, technology, year_vtg, year_act, value, unit`. -/
structure FomRow where
  scenario_version : String
  scenario : String
  node_loc : String
  technology : String
  year_vtg : Int
  year_act : Int
  value : ℚ
  unit : String
deriving Repr, DecidableEq

/-- Local constant `HORIZON_START = 1960` of `create_message_inputs`. -/
def HORIZON_START : Int := 1960

/-- Local constant `HORIZON_END = 2110` of `create_message_inputs`. -/
def HORIZON_END : Int := 2110

/-- Modelled from the spec: `LAST_MODEL_YEAR` is imported from
`message_ix_models.tools.costs.config`, a module not among the sources;
the spec fixes the final model year at 2100 ("records for years after the
final model year repeat the value of the last model year (2100)"), which
also matches the hardcoded `year == 2100` query next to its use. -/
def LAST_MODEL_YEAR : Int := 2100

/-- The constant `BASE_YEAR` is likewise imported from the absent `config` module and
its numeric value is not fixed by the spec ("a module-wide constant"); we
keep it as an explicit parameter `base_year` of `create_message_inputs`. -/
def smaller_than (sequence : List Int) (value : Int) : List Int :=
  sequence.filter (fun item => item < value)

def larger_than (sequence : List Int) (value : Int) : List Int :=
  sequence.filter (fun item => value < item)

/-- The year grid `seq_years = list(range(HORIZON_START, HORIZON_END + 5, 5))`,
i.e. `[1960, 1965, …, 2110]` (31 entries). -/
def seq_years : List Int := (List.range 31).map (fun n => HORIZON_START + 5 * (n : Int))

/-- First-occurrence deduplication, the behaviour of `pandas.Series.unique`. -/
def unique_first_aux (seen : List String) : List String → List String
  | [] => []
  | a :: l =>
    if a ∈ seen then unique_first_aux seen l
    else a :: unique_first_aux (a :: seen) l

def unique_first (l : List String) : List String := unique_first_aux [] l

/-- Group selection `df_proj.query("scenario_version == @h and scenario == @i and
message_technology == @j and region == @k")`. -/
def query_group (df : List ProjRow) (h i j k : String) : List ProjRow :=
  df.filter (fun r =>
    r.scenario_version == h && r.scenario == i && r.message_technology == j && r.region == k)

/-- Column assignment `df.assign(year=y)`: replace the `year` column. -/
def with_year (y : Int) (r : ProjRow) : ProjRow := { r with year := y }

/-- The dataframe `costs_tot = costs_hist._append([tech, costs_fut])`: the group rows
with the 2020 row repeated for every historical year (`< BASE_YEAR - 5`)
and the 2100 row repeated for every year after `LAST_MODEL_YEAR`. -/
def costs_tot_of (base_year : Int) (tech : List ProjRow) : List ProjRow :=
  let hist_years := smaller_than seq_years (base_year - 5)
  let fut_years := larger_than seq_years LAST_MODEL_YEAR
  (hist_years.map (fun y => (tech.filter (fun r => r.year == 2020)).map (with_year y))).flatten
    ++ tech
    ++ (fut_years.map (fun y => (tech.filter (fun r => r.year == 2100)).map (with_year y))).flatten

/-- One row of `tech_inv`: `assign(year_vtg=year, value=inv_cost,
unit="USD/kWa", technology=message_technology, node_loc=region)` followed
by the reindex to the seven output columns. -/
def inv_of (r : ProjRow) : InvRow :=
  { scenario_version := r.scenario_version
    scenario := r.scenario
    node_loc := r.region
    technology := r.message_technology
    year_vtg := r.year
    value := r.inv_cost
    unit := "USD/kWa" }

/-- The fixed-O&M block for one vintage year `y` of one group:
`fom = costs_tot.query("year >= @y")`, `init_val` is the first `fix_cost`
at year 2020 (for `y <= 2020`) or at year `y` (for `y > 2020`) — `none`
models the `IndexError` pandas raises when that selection is empty — and
each activity year gets `np.where(year <= 2020, fix_cost,
init_val * (1 - 0.0025) ** (year - y))`. -/
def fom_rows_of (costs_tot : List ProjRow) (y : Int) : Option (List FomRow) :=
  let fom := costs_tot.filter (fun r => decide (y ≤ r.year))
  let init? : Option ℚ :=
    if y ≤ 2020 then (fom.filter (fun r => r.year == 2020)).head?.map (fun r => r.fix_cost)
    else (fom.filter (fun r => r.year == y)).head?.map (fun r => r.fix_cost)
  init?.map (fun init_val =>
    fom.map (fun r =>
      { scenario_version := r.scenario_version
        scenario := r.scenario
        node_loc := r.region
        technology := r.message_technology
        year_vtg := y
        year_act := r.year
        value := if r.year ≤ (2020 : Int) then r.fix_cost
                 else init_val * (1 - 0.0025 : ℚ) ^ (r.year - y).toNat
        unit := "USD/kWa" }))

/-- Effectful traversal of a list under `Option`, modelling a Python loop
whose body can raise: the first failing iteration aborts the whole call. -/
def traverse_option (f : α → Option β) : List α → Option (List β)
  | [] => some []
  | a :: as => (f a).bind (fun b => (traverse_option f as).map (fun bs => b :: bs))

/-- The iteration space `product(un_vers, un_scen, un_tech, un_reg)` over the four
`pd.unique` column value lists. -/
def all_groups (df_proj : List ProjRow) : List (String × String × String × String) :=
  (unique_first (df_proj.map (fun r => r.scenario_version))).flatMap (fun h =>
    (unique_first (df_proj.map (fun r => r.scenario))).flatMap (fun i =>
      (unique_first (df_proj.map (fun r => r.message_technology))).flatMap (fun j =>
        (unique_first (df_proj.map (fun r => r.region))).map (fun k => (h, i, j, k)))))

/-- The `costs_tot` dataframe of one `(h, i, j, k)` group. -/
def group_costs (base_year : Int) (df_proj : List ProjRow) (h i j k : String) :
    List ProjRow :=
  costs_tot_of base_year (query_group df_proj h i j k)

/-- The `(tech_inv, tech_fom)` pair of one group; `none` when the
`init_val` lookup of any vintage raises. -/
def group_out (base_year : Int) (df_proj : List ProjRow) (h i j k : String) :
    Option (List InvRow × List FomRow) :=
  let ct := group_costs base_year df_proj h i j k
  (traverse_option (fom_rows_of ct) seq_years).map (fun ls => (ct.map inv_of, ls.flatten))

/-- The formatter `create_message_inputs(df_proj)`: returns `(msg_inv, msg_fom)`.
`none` models the exceptions of the Python original: `pd.concat(l_hist)`
with no historical years, `pd.concat(l_inv)` with no groups, or an
`IndexError` from an `init_val` lookup on an empty selection. -/
def create_message_inputs (base_year : Int) (df_proj : List ProjRow) :
    Option (List InvRow × List FomRow) :=
  if smaller_than seq_years (base_year - 5) = [] then none
  else if all_groups df_proj = [] then none
  else
    (traverse_option (fun g => group_out base_year df_proj g.1 g.2.1 g.2.2.1 g.2.2.2)
        (all_groups df_proj)).map
      (fun parts => ((parts.map Prod.fst).flatten, (parts.map Prod.snd).flatten))

/-- Python `str.upper()`, i.e. upper-casing character by character
(the region codes involved are ASCII).  The character-map definition is
used because the body of `String.toUpper` in core does not reduce inside
the kernel. -/
def str_upper (s : String) : String := ⟨s.data.map Char.toUpper⟩

/-- Modelled from the spec: the five pipeline stages called by
`get_cost_projections` live in modules (`weo`, `learning`, `gdp`,
`splines`) that are not among the sources.  The entry point only threads
its configuration through them, so we abstract them as a bundle of
arbitrary functions with the call shapes of the source:
`get_weo_region_differentiated_costs(input_node, input_ref_region,
input_base_year)` and so on. -/
structure CostStages (α β γ δ ε : Type) where
  get_weo_region_differentiated_costs : String → Option String → Int → α
  project_ref_region_inv_costs_using_learning_rates : α → String → Option String → Int → β
  calculate_gdp_adjusted_region_cost_ratios : α → String → Option String → Int → γ
  project_all_inv_costs : α → β → γ → Int → String → String → δ
  get_final_inv_and_fom_costs : δ → String → ε

/-- The reference-region resolution of `get_cost_projections`: when no
reference region is given, each resolution picks its `_NAM` default;
a given reference region is upper-cased and used instead. -/
def resolve_ref_region (node_up : String) (sel_ref_region : Option String) : Option String :=
  match sel_ref_region with
  | none =>
    if node_up == "R11" then some "R11_NAM"
    else if node_up == "R12" then some "R12_NAM"
    else if node_up == "R20" then some "R20_NAM"
    else none
  | some s => some (str_upper s)

/-- The body of the valid branch of `get_cost_projections`: the five stage
calls, threading `sel_node`, the resolved reference region, the base year,
the scenario-version/scenario selectors, the convergence year and the
method exactly as the source does. -/
def run_cost_pipeline {α β γ δ ε : Type} (S : CostStages α β γ δ ε) (sel_node : String)
    (ref_region : Option String) (sel_base_year : Int)
    (sel_scenario_version sel_scenario : String) (sel_convergence_year : Int)
    (sel_method : String) : ε :=
  let df_region_diff :=
    S.get_weo_region_differentiated_costs sel_node ref_region sel_base_year
  let df_ref_reg_learning :=
    S.project_ref_region_inv_costs_using_learning_rates df_region_diff sel_node
      ref_region sel_base_year
  let df_adj_cost_ratios :=
    S.calculate_gdp_adjusted_region_cost_ratios df_region_diff sel_node
      ref_region sel_base_year
  let df_all_inv :=
    S.project_all_inv_costs df_region_diff df_ref_reg_learning df_adj_cost_ratios
      sel_convergence_year sel_scenario_version sel_scenario
  S.get_final_inv_and_fom_costs df_all_inv sel_method

/-- The entry point `get_cost_projections`: upper-cases the node selection, returns the
human-readable error string on an invalid spatial resolution, and
otherwise resolves the reference region and runs the pipeline.  The
`print` calls of the source are I/O only and are not modelled; the
`sel_format` argument is accepted and, as in the source body, unused. -/
def get_cost_projections {α β γ δ ε : Type} (S : CostStages α β γ δ ε) (sel_node : String)
    (sel_ref_region : Option String) (sel_base_year : Int)
    (sel_scenario_version sel_scenario : String) (sel_method : String)
    (sel_convergence_year : Int) (_sel_format : String) : Except String ε :=
  let node_up := str_upper sel_node
  if node_up ∉ ["R11", "R12", "R20"] then
    Except.error "Please select a valid spatial resolution: R11, R12, or R20"
  else
    Except.ok (run_cost_pipeline S sel_node (resolve_ref_region node_up sel_ref_region)
      sel_base_year sel_scenario_version sel_scenario sel_convergence_year sel_method)

/-- A trivial stage bundle, used to instantiate the entry-point theorems
at concrete inputs. -/
def trivial_stages : CostStages Unit Unit Unit Unit Unit :=
  { get_weo_region_differentiated_costs := fun _ _ _ => ()
    project_ref_region_inv_costs_using_learning_rates := fun _ _ _ _ => ()
    calculate_gdp_adjusted_region_cost_ratios := fun _ _ _ _ => ()
    project_all_inv_costs := fun _ _ _ _ _ _ => ()
    get_final_inv_and_fom_costs := fun _ _ => () }

/-- Modelled from the spec: the scenario selector applied inside
`project_all_inv_costs` (module `splines`, not among the sources) — a plain string, or "all" to retain every scenario: a plain scenario value keeps
the rows of that scenario, `"all"` keeps every row. -/
def filter_by_scenario (sel_scenario : String) (df : List ProjRow) : List ProjRow :=
  if sel_scenario = "all" then df else df.filter (fun r => r.scenario == sel_scenario)

/-- A stage bundle over a fixed base dataset `df0` whose
`project_all_inv_costs` applies the spec-modelled scenario filter and
whose other stages are pass-throughs; it lets the scenario round-trip
property be stated on `get_cost_projections` itself. -/
def scenario_filter_stages (df0 : List ProjRow) :
    CostStages (List ProjRow) Unit Unit (List ProjRow) (List ProjRow) :=
  { get_weo_region_differentiated_costs := fun _ _ _ => df0
    project_ref_region_inv_costs_using_learning_rates := fun _ _ _ _ => ()
    calculate_gdp_adjusted_region_cost_ratios := fun _ _ _ _ => ()
    project_all_inv_costs := fun d _ _ _ _ sc => filter_by_scenario sc d
    get_final_inv_and_fom_costs := fun d _ => d }

/-- Modelled from the spec:
`project_ref_region_inv_costs_using_learning_rates` (module `learning`,
not among the sources) extrapolates the investment cost of the reference
region forward in time using a per-technology annual cost-reduction rate:
the projected cost at a year declines from the base-year cost by the
per-technology rate, compounded annually. -/
def learning_rate_cost (cost_base rate : ℚ) (base_year year : Int) : ℚ :=
  cost_base * (1 - rate) ^ (year - base_year).toNat

/-- A concrete cost projection used to instantiate the theorems: one
(scenario-version, scenario, technology, region) group with a row for
every model year 2020, 2025, …, 2100, all costs equal to 1. -/
def sample_df : List ProjRow :=
  (List.range 17).map (fun n =>
    { scenario_version := "v1"
      scenario := "SSP2"
      message_technology := "solar_pv"
      region := "R12_NAM"
      year := 2020 + 5 * (n : Int)
      inv_cost := 1
      fix_cost := 1 })

/-- The output of `create_message_inputs` on the sample projection with
base year 2021. -/
def sample_out : List InvRow × List FomRow :=
  (create_message_inputs 2021 sample_df).getD ([], [])

/-- A projection row and an investment output record belong to the same
(scenario_version, scenario, technology, region) group. -/
def inv_matches (p : ProjRow) (r : InvRow) : Prop :=
  p.scenario_version = r.scenario_version ∧ p.scenario = r.scenario ∧
    p.message_technology = r.technology ∧ p.region = r.node_loc

/-- A projection row and a fixed-O&M output record belong to the same
(scenario_version, scenario, technology, region) group. -/
def fom_matches (p : ProjRow) (r : FomRow) : Prop :=
  p.scenario_version = r.scenario_version ∧ p.scenario = r.scenario ∧
    p.message_technology = r.technology ∧ p.region = r.node_loc

/-- The first investment record of the sample output: the repeated 2020
row at the historical year 1960. -/
def sample_inv_row_1960 : InvRow :=
  { scenario_version := "v1", scenario := "SSP2", node_loc := "R12_NAM",
    technology := "solar_pv", year_vtg := 1960, value := 1, unit := "USD/kWa" }

/-- The fixed-O&M record of the sample output at vintage 1960, activity
year 2020: a historical value, kept unchanged. -/
def sample_fom_row_a : FomRow :=
  { scenario_version := "v1", scenario := "SSP2", node_loc := "R12_NAM",
    technology := "solar_pv", year_vtg := 1960, year_act := 2020,
    value := 1, unit := "USD/kWa" }

/-- The fixed-O&M record of the sample output at vintage 1960, activity
year 2025: decayed with exponent 2025 - 1960 = 65 from the vintage. -/
def sample_fom_row_b : FomRow :=
  { scenario_version := "v1", scenario := "SSP2", node_loc := "R12_NAM",
    technology := "solar_pv", year_vtg := 1960, year_act := 2025,
    value := 1 * (1 - 0.0025 : ℚ) ^ 65, unit := "USD/kWa" }

/-- The fixed-O&M record of the sample output at vintage 1960, activity
year 2105: decayed with exponent 2105 - 1960 = 145 from the vintage. -/
def sample_fom_row_c : FomRow :=
  { scenario_version := "v1", scenario := "SSP2", node_loc := "R12_NAM",
    technology := "solar_pv", year_vtg := 1960, year_act := 2105,
    value := 1 * (1 - 0.0025 : ℚ) ^ 145, unit := "USD/kWa" }

theorem sample_some : create_message_inputs 2021 sample_df = some sample_out := rfl

/-! ### The entry point: validation and argument resolution -/

/-- Helper: on a valid (upper-cased) spatial resolution, the entry point
returns `ok` of the pipeline run on the resolved reference region. -/
theorem gcp_valid {α β γ δ ε : Type} (S : CostStages α β γ δ ε) (sel_node : String)
    (sel_ref_region : Option String) (b : Int) (sv sc m : String) (cy : Int) (f : String)
    (h : str_upper sel_node ∈ ["R11", "R12", "R20"]) :
    get_cost_projections S sel_node sel_ref_region b sv sc m cy f =
      Except.ok (run_cost_pipeline S sel_node
        (resolve_ref_region (str_upper sel_node) sel_ref_region) b sv sc cy m) := by
  unfold get_cost_projections
  rw [if_neg (not_not_intro h)]

/-- C1: for every input string `sel_node` whose upper-cased form is not
one of R11, R12, R20, `get_cost_projections` returns the human-readable
error string (not a dataframe) and does not raise (it is a total
function); the membership check happens on the upper-cased form, so it is
case-insensitive. -/
theorem getCostProjections_invalid_resolution_error {α β γ δ ε : Type}
    (S : CostStages α β γ δ ε) (sel_node : String) (sel_ref_region : Option String)
    (b : Int) (sv sc m : String) (cy : Int) (f : String)
    (h : str_upper sel_node ∉ ["R11", "R12", "R20"]) :
    get_cost_projections S sel_node sel_ref_region b sv sc m cy f =
      Except.error "Please select a valid spatial resolution: R11, R12, or R20" := by
  unfold get_cost_projections
  rw [if_pos h]

theorem getCostProjections_invalid_resolution_error_witness :
    get_cost_projections trivial_stages "R99" none 2021 "updated" "all" "convergence"
        2050 "message" =
      Except.error "Please select a valid spatial resolution: R11, R12, or R20" :=
  getCostProjections_invalid_resolution_error trivial_stages "R99" none 2021 "updated"
    "all" "convergence" 2050 "message" (by decide)

/-- C2: with no reference region given, R11 resolves to R11_NAM, R12 to
R12_NAM and R20 to R20_NAM, and the pipeline stages are run with that
default; when a reference region is given, its upper-cased form is used
instead. -/
theorem getCostProjections_default_ref_region {α β γ δ ε : Type}
    (S : CostStages α β γ δ ε) (b : Int) (sv sc m : String) (cy : Int) (f : String) :
    (get_cost_projections S "R11" none b sv sc m cy f =
        Except.ok (run_cost_pipeline S "R11" (some "R11_NAM") b sv sc cy m))
    ∧ (get_cost_projections S "R12" none b sv sc m cy f =
        Except.ok (run_cost_pipeline S "R12" (some "R12_NAM") b sv sc cy m))
    ∧ (get_cost_projections S "R20" none b sv sc m cy f =
        Except.ok (run_cost_pipeline S "R20" (some "R20_NAM") b sv sc cy m))
    ∧ (∀ sel_node ref_given, str_upper sel_node ∈ ["R11", "R12", "R20"] →
        get_cost_projections S sel_node (some ref_given) b sv sc m cy f =
          Except.ok (run_cost_pipeline S sel_node (some (str_upper ref_given))
            b sv sc cy m)) := by
  refine ⟨?_, ?_, ?_, fun sel_node ref_given h => ?_⟩
  · rw [gcp_valid S _ _ _ _ _ _ _ _ (by decide),
      show resolve_ref_region (str_upper "R11") none = some "R11_NAM" from by decide]
  · rw [gcp_valid S _ _ _ _ _ _ _ _ (by decide),
      show resolve_ref_region (str_upper "R12") none = some "R12_NAM" from by decide]
  · rw [gcp_valid S _ _ _ _ _ _ _ _ (by decide),
      show resolve_ref_region (str_upper "R20") none = some "R20_NAM" from by decide]
  · rw [gcp_valid S _ _ _ _ _ _ _ _ h]
    rfl

theorem getCostProjections_default_ref_region_witness :
    (get_cost_projections trivial_stages "R12" none 2021 "updated" "all" "convergence"
        2050 "message" =
      Except.ok (run_cost_pipeline trivial_stages "R12" (some "R12_NAM") 2021 "updated"
        "all" 2050 "convergence"))
    ∧ (get_cost_projections trivial_stages "r12" (some "r12_weu") 2021 "updated" "all"
        "convergence" 2050 "message" =
      Except.ok (run_cost_pipeline trivial_stages "r12" (some "R12_WEU") 2021 "updated"
        "all" 2050 "convergence")) := by
  have h := getCostProjections_default_ref_region trivial_stages 2021 "updated" "all"
    "convergence" 2050 "message"
  refine ⟨h.2.1, ?_⟩
  rw [h.2.2.2 "r12" "r12_weu" (by decide),
    show str_upper "r12_weu" = "R12_WEU" from by decide]

/-! ### Scenario filtering (spec-modelled splines stage) -/

theorem mem_of_mem_filter_by_scenario {sel : String} {df : List ProjRow} {row : ProjRow}
    (h : row ∈ filter_by_scenario sel df) : row ∈ df := by
  unfold filter_by_scenario at h
  split at h
  · exact h
  · exact List.mem_of_mem_filter h

/-- C8: through the entry point (with the spec-modelled scenario-filtering
stage), every record obtained with any individual scenario selection is
also obtained with `sel_scenario = "all"`; hence the `"all"` result is a
superset of the union over individual scenario values. -/
theorem getCostProjections_all_scenarios_superset (df0 : List ProjRow) (sel_node : String)
    (ref : Option String) (b : Int) (sv sel m : String) (cy : Int) (f : String)
    (row : ProjRow) (out : List ProjRow)
    (hnode : str_upper sel_node ∈ ["R11", "R12", "R20"])
    (hout : get_cost_projections (scenario_filter_stages df0) sel_node ref b sv sel m cy f
      = Except.ok out)
    (hrow : row ∈ out) :
    ∃ out_all,
      get_cost_projections (scenario_filter_stages df0) sel_node ref b sv "all" m cy f
          = Except.ok out_all
        ∧ row ∈ out_all := by
  rw [gcp_valid _ _ _ _ _ _ _ _ _ hnode] at hout
  refine ⟨df0, ?_, ?_⟩
  · rw [gcp_valid _ _ _ _ _ _ _ _ _ hnode]
    simp [run_cost_pipeline, scenario_filter_stages, filter_by_scenario]
  · have hv : out = filter_by_scenario sel df0 := by
      simpa [run_cost_pipeline, scenario_filter_stages] using hout.symm
    exact mem_of_mem_filter_by_scenario (hv ▸ hrow)

theorem getCostProjections_all_scenarios_superset_witness :
    ∃ out_all,
      get_cost_projections (scenario_filter_stages sample_df) "R12" none 2021 "updated"
          "all" "convergence" 2050 "message" = Except.ok out_all
        ∧ ({ scenario_version := "v1", scenario := "SSP2", message_technology := "solar_pv",
             region := "R12_NAM", year := 2020, inv_cost := 1, fix_cost := 1 } : ProjRow)
            ∈ out_all :=
  getCostProjections_all_scenarios_superset sample_df "R12" none 2021 "updated" "SSP2"
    "convergence" 2050 "message" _ (filter_by_scenario "SSP2" sample_df) (by decide)
    (by rw [gcp_valid _ _ _ _ _ _ _ _ _ (by decide)]; rfl) (by decide)

/-! ### Learning-rate projection (spec-modelled learning stage) -/

/-- C9: for a technology with cost-reduction rate `rate`, the projected
reference-region investment cost at year `y + 1` equals the projected cost
at year `y` multiplied by `1 - rate`, for every year at or after the base
year. -/
theorem learning_rate_cost_annual_step (cost_base rate : ℚ) (b y : Int) (h : b ≤ y) :
    learning_rate_cost cost_base rate b (y + 1) =
      learning_rate_cost cost_base rate b y * (1 - rate) := by
  unfold learning_rate_cost
  rw [show (y + 1 - b).toNat = (y - b).toNat + 1 from by omega, pow_succ]
  ring

theorem learning_rate_cost_annual_step_witness :
    learning_rate_cost 100 (1/10) 2020 2026 =
      learning_rate_cost 100 (1/10) 2020 2025 * (1 - 1/10) :=
  learning_rate_cost_annual_step 100 (1/10) 2020 2025 (by decide)

/-! ### Structural lemmas about `create_message_inputs` -/

@[simp] theorem with_year_scenario_version (y : Int) (p : ProjRow) :
    (with_year y p).scenario_version = p.scenario_version := rfl

@[simp] theorem with_year_scenario (y : Int) (p : ProjRow) :
    (with_year y p).scenario = p.scenario := rfl

@[simp] theorem with_year_message_technology (y : Int) (p : ProjRow) :
    (with_year y p).message_technology = p.message_technology := rfl

@[simp] theorem with_year_region (y : Int) (p : ProjRow) :
    (with_year y p).region = p.region := rfl

@[simp] theorem with_year_year (y : Int) (p : ProjRow) : (with_year y p).year = y := rfl

@[simp] theorem with_year_inv_cost (y : Int) (p : ProjRow) :
    (with_year y p).inv_cost = p.inv_cost := rfl

@[simp] theorem with_year_fix_cost (y : Int) (p : ProjRow) :
    (with_year y p).fix_cost = p.fix_cost := rfl

theorem traverse_option_mem {α β : Type _} {f : α → Option β} {xs : List α} {ys : List β}
    (h : traverse_option f xs = some ys) {y : β} (hy : y ∈ ys) : ∃ x ∈ xs, f x = some y := by
  induction xs generalizing ys with
  | nil =>
    unfold traverse_option at h
    cases h
    exact absurd hy (List.not_mem_nil y)
  | cons a as ih =>
    unfold traverse_option at h
    rcases Option.bind_eq_some.mp h with ⟨b, hfa, hmap⟩
    rcases Option.map_eq_some'.mp hmap with ⟨bs, htr, hys⟩
    subst hys
    rcases List.mem_cons.mp hy with rfl | hybs
    · exact ⟨a, List.mem_cons_self a as, hfa⟩
    · rcases ih htr hybs with ⟨x, hx, hfx⟩
      exact ⟨x, List.mem_cons_of_mem a hx, hfx⟩

theorem traverse_option_mem_of_mem {α β : Type _} {f : α → Option β} {xs : List α}
    {ys : List β} (h : traverse_option f xs = some ys) {x : α} (hx : x ∈ xs) :
    ∃ y ∈ ys, f x = some y := by
  induction xs generalizing ys with
  | nil => exact absurd hx (List.not_mem_nil x)
  | cons a as ih =>
    unfold traverse_option at h
    rcases Option.bind_eq_some.mp h with ⟨b, hfa, hmap⟩
    rcases Option.map_eq_some'.mp hmap with ⟨bs, htr, hys⟩
    subst hys
    rcases List.mem_cons.mp hx with rfl | hxas
    · exact ⟨b, List.mem_cons_self b bs, hfa⟩
    · rcases ih htr hxas with ⟨y, hy, hfy⟩
      exact ⟨y, List.mem_cons_of_mem b hy, hfy⟩

theorem unique_first_aux_mem {a : String} {l : List String} :
    ∀ {seen : List String}, a ∈ l → a ∉ seen → a ∈ unique_first_aux seen l := by
  induction l with
  | nil => intro seen h _; exact absurd h (List.not_mem_nil a)
  | cons b l ih =>
    intro seen hal hns
    unfold unique_first_aux
    rcases List.mem_cons.mp hal with rfl | hal2
    · rw [if_neg hns]
      exact List.mem_cons_self a _
    · by_cases hb : b ∈ seen
      · rw [if_pos hb]
        exact ih hal2 hns
      · rw [if_neg hb]
        by_cases hab : a = b
        · subst hab
          exact List.mem_cons_self a _
        · refine List.mem_cons_of_mem b (ih hal2 ?_)
          intro hmem
          exact (List.mem_cons.mp hmem).elim hab hns

theorem unique_first_mem {a : String} {l : List String} (h : a ∈ l) :
    a ∈ unique_first l :=
  unique_first_aux_mem h (List.not_mem_nil a)

theorem mem_query_group {df : List ProjRow} {h i j k : String} {r : ProjRow}
    (hr : r ∈ query_group df h i j k) :
    r ∈ df ∧ r.scenario_version = h ∧ r.scenario = i ∧
      r.message_technology = j ∧ r.region = k := by
  have hm := List.mem_filter.mp hr
  refine ⟨hm.1, ?_⟩
  have h2 := hm.2
  simp only [Bool.and_eq_true, beq_iff_eq] at h2
  tauto

theorem self_mem_query_group {df : List ProjRow} {p : ProjRow} (hp : p ∈ df) :
    p ∈ query_group df p.scenario_version p.scenario p.message_technology p.region := by
  refine List.mem_filter.mpr ⟨hp, ?_⟩
  simp

/-- Every row of `costs_tot` is a group row with (possibly) a reassigned
year: its own row, a repeated 2020 row at a historical year, or a repeated
2100 row at a post-2100 year. -/
theorem mem_costs_tot {b : Int} {tech : List ProjRow} {r : ProjRow}
    (hr : r ∈ costs_tot_of b tech) :
    ∃ p ∈ tech, r = with_year r.year p ∧
      (p.year = r.year ∨ (p.year = 2020 ∧ r.year < b - 5) ∨
        (p.year = 2100 ∧ 2100 < r.year)) := by
  unfold costs_tot_of smaller_than larger_than at hr
  rcases List.mem_append.mp hr with hr12 | hr3
  · rcases List.mem_append.mp hr12 with hr1 | hr2
    · rcases List.mem_flatten.mp hr1 with ⟨s, hs, hrs⟩
      rcases List.mem_map.mp hs with ⟨y, hy, rfl⟩
      rcases List.mem_map.mp hrs with ⟨p, hp, rfl⟩
      have hpf := List.mem_filter.mp hp
      have hyf := List.mem_filter.mp hy
      refine ⟨p, hpf.1, rfl, Or.inr (Or.inl ⟨by simpa using hpf.2, ?_⟩)⟩
      simpa using of_decide_eq_true hyf.2
    · refine ⟨r, hr2, ?_, Or.inl rfl⟩
      cases r
      rfl
  · rcases List.mem_flatten.mp hr3 with ⟨s, hs, hrs⟩
    rcases List.mem_map.mp hs with ⟨y, hy, rfl⟩
    rcases List.mem_map.mp hrs with ⟨p, hp, rfl⟩
    have hpf := List.mem_filter.mp hp
    have hyf := List.mem_filter.mp hy
    refine ⟨p, hpf.1, rfl, Or.inr (Or.inr ⟨by simpa using hpf.2, ?_⟩)⟩
    simpa [LAST_MODEL_YEAR] using of_decide_eq_true hyf.2

/-- Provenance of a `costs_tot` row of a `(h, i, j, k)` group in the input
projection. -/
theorem mem_group_costs {b : Int} {df : List ProjRow} {h i j k : String} {c : ProjRow}
    (hc : c ∈ group_costs b df h i j k) :
    ∃ p ∈ df, p.scenario_version = h ∧ p.scenario = i ∧ p.message_technology = j ∧
      p.region = k ∧ c.scenario_version = h ∧ c.scenario = i ∧
      c.message_technology = j ∧ c.region = k ∧
      c.inv_cost = p.inv_cost ∧ c.fix_cost = p.fix_cost ∧
      (p.year = c.year ∨ (p.year = 2020 ∧ c.year < b - 5) ∨
        (p.year = 2100 ∧ 2100 < c.year)) := by
  rcases mem_costs_tot hc with ⟨p, hp, hcp, hyears⟩
  rcases mem_query_group hp with ⟨hpdf, h1, h2, h3, h4⟩
  refine ⟨p, hpdf, h1, h2, h3, h4, ?_, ?_, ?_, ?_, ?_, ?_, hyears⟩ <;>
    rw [hcp] <;> simp [h1, h2, h3, h4]

theorem cmi_parts {b : Int} {df : List ProjRow} {out : List InvRow × List FomRow}
    (h : create_message_inputs b df = some out) :
    ∃ parts, traverse_option (fun g => group_out b df g.1 g.2.1 g.2.2.1 g.2.2.2)
        (all_groups df) = some parts
      ∧ out.1 = (parts.map Prod.fst).flatten ∧ out.2 = (parts.map Prod.snd).flatten := by
  unfold create_message_inputs at h
  split at h
  · exact absurd h (by simp)
  · split at h
    · exact absurd h (by simp)
    · rcases Option.map_eq_some'.mp h with ⟨parts, hp, hout⟩
      exact ⟨parts, hp, by rw [← hout], by rw [← hout]⟩

theorem group_out_parts {b : Int} {df : List ProjRow} {h i j k : String}
    {pr : List InvRow × List FomRow} (hg : group_out b df h i j k = some pr) :
    ∃ ls, traverse_option (fom_rows_of (group_costs b df h i j k)) seq_years = some ls
      ∧ pr.1 = (group_costs b df h i j k).map inv_of ∧ pr.2 = ls.flatten := by
  unfold group_out at hg
  rcases Option.map_eq_some'.mp hg with ⟨ls, hls, hpr⟩
  exact ⟨ls, hls, by rw [← hpr], by rw [← hpr]⟩

/-- Every investment-cost output row belongs to the `tech_inv` block of
some group of the product iteration. -/
theorem cmi_mem_inv {b : Int} {df : List ProjRow} {out : List InvRow × List FomRow}
    (h : create_message_inputs b df = some out) {r : InvRow} (hr : r ∈ out.1) :
    ∃ g : String × String × String × String, g ∈ all_groups df ∧
      r ∈ (group_costs b df g.1 g.2.1 g.2.2.1 g.2.2.2).map inv_of := by
  rcases cmi_parts h with ⟨parts, hparts, h1, _⟩
  rw [h1] at hr
  rcases List.mem_flatten.mp hr with ⟨s, hs, hrs⟩
  rcases List.mem_map.mp hs with ⟨part, hpart, rfl⟩
  rcases traverse_option_mem hparts hpart with ⟨g, hg, hfg⟩
  rcases group_out_parts hfg with ⟨ls, _, hp1, _⟩
  exact ⟨g, hg, by rw [← hp1]; exact hrs⟩

/-- Every fixed-O&M output row belongs to the vintage block of some group
and some vintage year of the 5-year grid. -/
theorem cmi_mem_fom {b : Int} {df : List ProjRow} {out : List InvRow × List FomRow}
    (h : create_message_inputs b df = some out) {r : FomRow} (hr : r ∈ out.2) :
    ∃ g : String × String × String × String, g ∈ all_groups df ∧
      ∃ y ∈ seq_years, ∃ rows,
        fom_rows_of (group_costs b df g.1 g.2.1 g.2.2.1 g.2.2.2) y = some rows
          ∧ r ∈ rows := by
  rcases cmi_parts h with ⟨parts, hparts, _, h2⟩
  rw [h2] at hr
  rcases List.mem_flatten.mp hr with ⟨s, hs, hrs⟩
  rcases List.mem_map.mp hs with ⟨part, hpart, rfl⟩
  rcases traverse_option_mem hparts hpart with ⟨g, hg, hfg⟩
  rcases group_out_parts hfg with ⟨ls, hls, _, hp2⟩
  rw [hp2] at hrs
  rcases List.mem_flatten.mp hrs with ⟨rows, hrows, hrrows⟩
  rcases traverse_option_mem hls hrows with ⟨y, hy, hfy⟩
  exact ⟨g, hg, y, hy, rows, hfy, hrrows⟩

/-- Conversely, every `costs_tot` row of the group of a projection row
appears (as an investment record) in the output. -/
theorem cmi_inv_of_mem {b : Int} {df : List ProjRow} {out : List InvRow × List FomRow}
    (h : create_message_inputs b df = some out) {p : ProjRow} (hp : p ∈ df)
    {c : ProjRow}
    (hc : c ∈ group_costs b df p.scenario_version p.scenario p.message_technology
      p.region) :
    inv_of c ∈ out.1 := by
  rcases cmi_parts h with ⟨parts, hparts, h1, _⟩
  have hgm : (p.scenario_version, p.scenario, p.message_technology, p.region)
      ∈ all_groups df := by
    unfold all_groups
    refine List.mem_flatMap.mpr
      ⟨p.scenario_version, unique_first_mem (List.mem_map.mpr ⟨p, hp, rfl⟩), ?_⟩
    refine List.mem_flatMap.mpr
      ⟨p.scenario, unique_first_mem (List.mem_map.mpr ⟨p, hp, rfl⟩), ?_⟩
    refine List.mem_flatMap.mpr
      ⟨p.message_technology, unique_first_mem (List.mem_map.mpr ⟨p, hp, rfl⟩), ?_⟩
    exact List.mem_map.mpr ⟨p.region, unique_first_mem (List.mem_map.mpr ⟨p, hp, rfl⟩), rfl⟩
  rcases traverse_option_mem_of_mem hparts hgm with ⟨part, hpart, hfg⟩
  rcases group_out_parts hfg with ⟨ls, _, hp1, _⟩
  rw [h1]
  refine List.mem_flatten.mpr ⟨part.1, List.mem_map.mpr ⟨part, hpart, rfl⟩, ?_⟩
  rw [hp1]
  exact List.mem_map.mpr ⟨c, hc, rfl⟩

/-- Structure of one fixed-O&M row: its vintage is the block year, its
activity year is the year of a `costs_tot` row at or after the vintage,
and its value is the historical fixed cost (activity years up to 2020) or
the decayed initial value (exponent counted from the vintage year). -/
theorem mem_fom_rows {ct : List ProjRow} {y : Int} {rows : List FomRow}
    (hsome : fom_rows_of ct y = some rows) {r : FomRow} (hr : r ∈ rows) :
    r.year_vtg = y ∧ r.unit = "USD/kWa" ∧
    ∃ c ∈ ct, y ≤ c.year ∧ r.year_act = c.year ∧
      r.scenario_version = c.scenario_version ∧ r.scenario = c.scenario ∧
      r.technology = c.message_technology ∧ r.node_loc = c.region ∧
      ((c.year ≤ 2020 ∧ r.value = c.fix_cost) ∨
        (2020 < c.year ∧ ∃ c0 ∈ ct, y ≤ c0.year ∧
          ((y ≤ 2020 ∧ c0.year = 2020) ∨ (2020 < y ∧ c0.year = y)) ∧
          r.value = c0.fix_cost * (1 - 0.0025 : ℚ) ^ (c.year - y).toNat)) := by
  unfold fom_rows_of at hsome
  rcases Option.map_eq_some'.mp hsome with ⟨init, hinit, hrows⟩
  subst hrows
  rcases List.mem_map.mp hr with ⟨c, hc, rfl⟩
  have hcf := List.mem_filter.mp hc
  have hyc : y ≤ c.year := of_decide_eq_true hcf.2
  refine ⟨rfl, rfl, c, hcf.1, hyc, rfl, rfl, rfl, rfl, rfl, ?_⟩
  by_cases hc2020 : c.year ≤ (2020 : Int)
  · exact Or.inl ⟨hc2020, by simp [hc2020]⟩
  · refine Or.inr ⟨lt_of_not_le hc2020, ?_⟩
    by_cases hy2020 : y ≤ (2020 : Int)
    · rw [if_pos hy2020] at hinit
      rcases Option.map_eq_some'.mp hinit with ⟨c0, hc0head, hival⟩
      have hc0 : c0 ∈ (ct.filter (fun r => decide (y ≤ r.year))).filter
          (fun r => r.year == 2020) :=
        List.mem_of_mem_head? (Option.mem_def.mpr hc0head)
      have hc0f := List.mem_filter.mp hc0
      have hc0ff := List.mem_filter.mp hc0f.1
      refine ⟨c0, hc0ff.1, of_decide_eq_true hc0ff.2,
        Or.inl ⟨hy2020, by simpa using hc0f.2⟩, ?_⟩
      rw [← hival]
      simp [hc2020]
    · rw [if_neg hy2020] at hinit
      rcases Option.map_eq_some'.mp hinit with ⟨c0, hc0head, hival⟩
      have hc0 : c0 ∈ (ct.filter (fun r => decide (y ≤ r.year))).filter
          (fun r => r.year == y) :=
        List.mem_of_mem_head? (Option.mem_def.mpr hc0head)
      have hc0f := List.mem_filter.mp hc0
      have hc0ff := List.mem_filter.mp hc0f.1
      refine ⟨c0, hc0ff.1, of_decide_eq_true hc0ff.2,
        Or.inr ⟨by omega, by simpa using hc0f.2⟩, ?_⟩
      rw [← hival]
      simp [hc2020]

/-- Extraction of a list element from an indexed access. -/
theorem mem_of_index {α : Type _} {l : List α} {n : Nat} {a : α} (h : l[n]? = some a) :
    a ∈ l := by
  rcases List.getElem?_eq_some_iff.mp h with ⟨hlt, hget⟩
  exact hget ▸ List.getElem_mem hlt

theorem sample_df_fix_cost {p : ProjRow} (hp : p ∈ sample_df) : p.fix_cost = 1 := by
  rcases List.mem_map.mp hp with ⟨n, _, rfl⟩
  rfl

theorem sample_df_inv_cost {p : ProjRow} (hp : p ∈ sample_df) : p.inv_cost = 1 := by
  rcases List.mem_map.mp hp with ⟨n, _, rfl⟩
  rfl

theorem seq_years_lower_bound : ∀ y ∈ seq_years, (1960 : Int) ≤ y := by decide

set_option maxRecDepth 4000 in
theorem sample_inv_row_1960_mem : sample_out.1[0]? = some sample_inv_row_1960 := rfl

set_option maxRecDepth 4000 in
theorem sample_fom_row_a_mem : sample_out.2[12]? = some sample_fom_row_a := rfl

set_option maxRecDepth 4000 in
theorem sample_fom_row_b_mem : sample_out.2[13]? = some sample_fom_row_b := rfl

set_option maxRecDepth 4000 in
theorem sample_fom_row_c_mem : sample_out.2[29]? = some sample_fom_row_c := rfl

/-! ### Claims about the final formatter -/

/-- C6: on every successful return, `create_message_inputs` yields a pair
of tables whose records carry exactly the reindexed column sets — the
investment records are `InvRow` (scenario_version, scenario, node_loc,
technology, year_vtg, value, unit) and the fixed-cost records are `FomRow`
(…, year_vtg, year_act, value, unit), in that field order — and every
record of both tables has `unit = "USD/kWa"`. -/
theorem createMessageInputs_output_shape {b : Int} {df : List ProjRow}
    {out : List InvRow × List FomRow} (h : create_message_inputs b df = some out) :
    (∀ r ∈ out.1, r.unit = "USD/kWa") ∧ (∀ r ∈ out.2, r.unit = "USD/kWa") := by
  constructor
  · intro r hr
    rcases cmi_mem_inv h hr with ⟨g, _, hmem⟩
    rcases List.mem_map.mp hmem with ⟨c, _, rfl⟩
    rfl
  · intro r hr
    rcases cmi_mem_fom h hr with ⟨g, _, y, _, rows, hrows, hmem⟩
    exact (mem_fom_rows hrows hmem).2.1

theorem createMessageInputs_output_shape_witness :
    (∀ r ∈ sample_out.1, r.unit = "USD/kWa")
    ∧ (∀ r ∈ sample_out.2, r.unit = "USD/kWa") :=
  createMessageInputs_output_shape sample_some

/-- C10: every fixed-O&M record has `year_vtg ≤ year_act`: a vintage block
only contains activity years at or after the vintage year. -/
theorem createMessageInputs_fom_act_ge_vtg {b : Int} {df : List ProjRow}
    {out : List InvRow × List FomRow} (h : create_message_inputs b df = some out) :
    ∀ r ∈ out.2, r.year_vtg ≤ r.year_act := by
  intro r hr
  rcases cmi_mem_fom h hr with ⟨g, _, y, _, rows, hrows, hmem⟩
  rcases mem_fom_rows hrows hmem with ⟨hvtg, _, c, _, hyc, hact, _⟩
  rw [hvtg, hact]
  exact hyc

theorem createMessageInputs_fom_act_ge_vtg_witness :
    sample_fom_row_a.year_vtg ≤ sample_fom_row_a.year_act :=
  createMessageInputs_fom_act_ge_vtg sample_some sample_fom_row_a
    (mem_of_index sample_fom_row_a_mem)

/-- C7: if every input projection row has non-negative investment and
fixed costs, every output value (investment and fixed O&M) is
non-negative. -/
theorem createMessageInputs_nonneg {b : Int} {df : List ProjRow}
    {out : List InvRow × List FomRow}
    (hinv : ∀ p ∈ df, 0 ≤ p.inv_cost) (hfix : ∀ p ∈ df, 0 ≤ p.fix_cost)
    (h : create_message_inputs b df = some out) :
    (∀ r ∈ out.1, 0 ≤ r.value) ∧ (∀ r ∈ out.2, 0 ≤ r.value) := by
  constructor
  · intro r hr
    rcases cmi_mem_inv h hr with ⟨g, _, hmem⟩
    rcases List.mem_map.mp hmem with ⟨c, hc, rfl⟩
    rcases mem_group_costs hc with ⟨p, hpdf, _, _, _, _, _, _, _, _, hciv, _, _⟩
    show (0 : ℚ) ≤ c.inv_cost
    rw [hciv]
    exact hinv p hpdf
  · intro r hr
    rcases cmi_mem_fom h hr with ⟨g, _, y, _, rows, hrows, hmem⟩
    rcases mem_fom_rows hrows hmem with ⟨_, _, c, hc, _, _, _, _, _, _, hval⟩
    rcases hval with ⟨_, hv⟩ | ⟨_, c0, hc0, _, _, hv⟩
    · rw [hv]
      rcases mem_group_costs hc with ⟨p, hpdf, _, _, _, _, _, _, _, _, _, hcfv, _⟩
      rw [hcfv]
      exact hfix p hpdf
    · rw [hv]
      rcases mem_group_costs hc0 with ⟨p, hpdf, _, _, _, _, _, _, _, _, _, hcfv, _⟩
      rw [hcfv]
      exact mul_nonneg (hfix p hpdf) (pow_nonneg (by norm_num) _)

theorem createMessageInputs_nonneg_witness :
    (∀ r ∈ sample_out.1, 0 ≤ r.value) ∧ (∀ r ∈ sample_out.2, 0 ≤ r.value) :=
  createMessageInputs_nonneg (by decide) (by decide) sample_some

/-- C4: under a base year near the anchor (`b ≤ 2025`) and an input
projection whose pre-base-year rows sit at the anchor year 2020 (the
pipeline produces model years from 2020 on), every investment record with
`year_vtg < b` carries the investment cost of a year-2020 row of its
group. -/
theorem createMessageInputs_pre_base_year_inv {b : Int} {df : List ProjRow}
    {out : List InvRow × List FomRow} (hb : b ≤ 2025)
    (hyears : ∀ p ∈ df, p.year < b → p.year = 2020)
    (h : create_message_inputs b df = some out) :
    ∀ r ∈ out.1, r.year_vtg < b →
      ∃ p ∈ df, inv_matches p r ∧ p.year = 2020 ∧ r.value = p.inv_cost := by
  intro r hr hvtg
  rcases cmi_mem_inv h hr with ⟨g, _, hmem⟩
  rcases List.mem_map.mp hmem with ⟨c, hc, rfl⟩
  rcases mem_group_costs hc with ⟨p, hpdf, h1, h2, h3, h4, c1, c2, c3, c4, hciv, _, hyc⟩
  have hcy : c.year < b := hvtg
  refine ⟨p, hpdf, ⟨h1.trans c1.symm, h2.trans c2.symm, h3.trans c3.symm,
    h4.trans c4.symm⟩, ?_, hciv⟩
  rcases hyc with hpy | ⟨hpy, _⟩ | ⟨_, hcy2⟩
  · exact hyears p hpdf (by omega)
  · exact hpy
  · omega

theorem createMessageInputs_pre_base_year_inv_witness :
    ∃ p ∈ sample_df, inv_matches p sample_inv_row_1960 ∧ p.year = 2020 ∧
      sample_inv_row_1960.value = p.inv_cost :=
  createMessageInputs_pre_base_year_inv (by decide) (by decide) sample_some
    sample_inv_row_1960 (mem_of_index sample_inv_row_1960_mem) (by decide)

/-- Helper: each year-2100 row of the projection reappears, with a
reassigned year, as an investment record for every year after
`LAST_MODEL_YEAR` in the horizon grid. -/
theorem cmi_fut_row {b : Int} {df : List ProjRow} {out : List InvRow × List FomRow}
    (h : create_message_inputs b df = some out) {p : ProjRow} (hp : p ∈ df)
    (hp2100 : p.year = 2100) {y : Int}
    (hy : y ∈ larger_than seq_years LAST_MODEL_YEAR) :
    inv_of (with_year y p) ∈ out.1 := by
  refine cmi_inv_of_mem h hp ?_
  unfold group_costs costs_tot_of
  refine List.mem_append.mpr (Or.inr ?_)
  refine List.mem_flatten.mpr ⟨_, List.mem_map.mpr ⟨y, hy, rfl⟩, ?_⟩
  exact List.mem_map.mpr
    ⟨p, List.mem_filter.mpr ⟨self_mem_query_group hp, by simp [hp2100]⟩, rfl⟩

/-- C5 (amended): investment records after the final model year repeat a
year-2100 value of their group, and each year-2100 projection row is
extended to records at 2105 and 2110; fixed-O&M records at activity years
after 2100 do NOT repeat the 2100 value (they continue the 0.25 percent
decay — see the counterexample). -/
theorem createMessageInputs_post_2100_inv {b : Int} {df : List ProjRow}
    {out : List InvRow × List FomRow} (hb : b ≤ 2025)
    (hyears : ∀ p ∈ df, p.year ≤ 2100)
    (h : create_message_inputs b df = some out) :
    (∀ r ∈ out.1, 2100 < r.year_vtg →
        ∃ p ∈ df, inv_matches p r ∧ p.year = 2100 ∧ r.value = p.inv_cost)
    ∧ (∀ p ∈ df, p.year = 2100 → ∀ y, y = 2105 ∨ y = 2110 →
        ∃ r ∈ out.1, inv_matches p r ∧ r.year_vtg = y ∧ r.value = p.inv_cost) := by
  constructor
  · intro r hr hvtg
    rcases cmi_mem_inv h hr with ⟨g, _, hmem⟩
    rcases List.mem_map.mp hmem with ⟨c, hc, rfl⟩
    rcases mem_group_costs hc with ⟨p, hpdf, h1, h2, h3, h4, c1, c2, c3, c4, hciv, _, hyc⟩
    have hcy : (2100 : Int) < c.year := hvtg
    refine ⟨p, hpdf, ⟨h1.trans c1.symm, h2.trans c2.symm, h3.trans c3.symm,
      h4.trans c4.symm⟩, ?_, hciv⟩
    rcases hyc with hpy | ⟨_, hcy2⟩ | ⟨hpy, _⟩
    · have := hyears p hpdf
      omega
    · omega
    · exact hpy
  · intro p hpdf hp2100 y hy
    have hmem : y ∈ larger_than seq_years LAST_MODEL_YEAR := by
      rcases hy with rfl | rfl <;> decide
    refine ⟨inv_of (with_year y p), cmi_fut_row h hpdf hp2100 hmem,
      ⟨rfl, rfl, rfl, rfl⟩, rfl, rfl⟩

theorem createMessageInputs_post_2100_inv_witness :
    (∀ r ∈ sample_out.1, 2100 < r.year_vtg →
        ∃ p ∈ sample_df, inv_matches p r ∧ p.year = 2100 ∧ r.value = p.inv_cost)
    ∧ (∀ p ∈ sample_df, p.year = 2100 → ∀ y, y = 2105 ∨ y = 2110 →
        ∃ r ∈ sample_out.1, inv_matches p r ∧ r.year_vtg = y ∧ r.value = p.inv_cost) :=
  createMessageInputs_post_2100_inv (by decide) (by decide) sample_some

/-- C3 (amended): per fixed-O&M record, activity years at or before 2020
carry a historical fixed cost of the group unchanged (the row at that year
or, for repeated historical years, the 2020 row); activity years after
2020 carry `init * (1 - 0.0025) ^ (year_act - year_vtg)` — the decay
exponent is counted from the VINTAGE year, not from the base year — where
`init` is the fixed cost of the group at 2020 (vintages at or before
2020), at the vintage year itself (model-horizon vintages), or at 2100
(vintages after the final model year). -/
theorem createMessageInputs_fom_value_characterisation {b : Int} {df : List ProjRow}
    {out : List InvRow × List FomRow} (hb : b ≤ 2025)
    (h : create_message_inputs b df = some out) :
    ∀ r ∈ out.2,
      (r.year_act ≤ 2020 →
        ∃ p ∈ df, fom_matches p r ∧ (p.year = r.year_act ∨ p.year = 2020) ∧
          r.value = p.fix_cost)
      ∧ (2020 < r.year_act →
        ∃ p ∈ df, fom_matches p r ∧
          ((r.year_vtg ≤ 2020 ∧ p.year = 2020) ∨
            (2020 < r.year_vtg ∧
              (p.year = r.year_vtg ∨ (p.year = 2100 ∧ 2100 < r.year_vtg)))) ∧
          r.value = p.fix_cost * (1 - 0.0025 : ℚ) ^ (r.year_act - r.year_vtg).toNat) := by
  intro r hr
  rcases cmi_mem_fom h hr with ⟨g, _, y, _, rows, hrows, hmem⟩
  rcases mem_fom_rows hrows hmem with ⟨hvtg, _, c, hc, hyc, hact, f1, f2, f3, f4, hval⟩
  constructor
  · intro hract
    have hcy : c.year ≤ 2020 := by omega
    rcases hval with ⟨_, hv⟩ | ⟨hgt, _⟩
    · rcases mem_group_costs hc with ⟨p, hpdf, h1, h2, h3, h4, c1, c2, c3, c4, _, hcfv, hyp⟩
      refine ⟨p, hpdf, ⟨(h1.trans c1.symm).trans f1.symm, (h2.trans c2.symm).trans f2.symm,
        (h3.trans c3.symm).trans f3.symm, (h4.trans c4.symm).trans f4.symm⟩, ?_,
        hv.trans hcfv⟩
      rcases hyp with hpy | ⟨hpy, _⟩ | ⟨_, hcy2⟩
      · exact Or.inl (by omega)
      · exact Or.inr hpy
      · omega
    · omega
  · intro hract
    have hcy : 2020 < c.year := by omega
    rcases hval with ⟨hle, _⟩ | ⟨_, c0, hc0, _, hc0year, hv⟩
    · omega
    · rcases mem_group_costs hc with ⟨_, _, _, _, _, _, d1, d2, d3, d4, _, _, _⟩
      rcases mem_group_costs hc0 with ⟨p, hpdf, h1, h2, h3, h4, _, _, _, _, _, hcfv, hyp⟩
      refine ⟨p, hpdf, ⟨h1.trans ((f1.trans d1).symm), h2.trans ((f2.trans d2).symm),
        h3.trans ((f3.trans d3).symm), h4.trans ((f4.trans d4).symm)⟩, ?_, ?_⟩
      · rcases hc0year with ⟨hy2020, hc0y⟩ | ⟨hy2020, hc0y⟩
        · refine Or.inl ⟨by omega, ?_⟩
          rcases hyp with hpy | ⟨hpy, _⟩ | ⟨_, hcy2⟩
          · omega
          · exact hpy
          · omega
        · refine Or.inr ⟨by omega, ?_⟩
          rcases hyp with hpy | ⟨hpy, hcy2⟩ | ⟨hpy, hcy2⟩
          · exact Or.inl (by omega)
          · omega
          · exact Or.inr ⟨hpy, by omega⟩
      · rw [hv, hcfv, hvtg, hact]

theorem createMessageInputs_fom_value_characterisation_witness :
    ∃ p ∈ sample_df, fom_matches p sample_fom_row_b ∧
      ((sample_fom_row_b.year_vtg ≤ 2020 ∧ p.year = 2020) ∨
        (2020 < sample_fom_row_b.year_vtg ∧
          (p.year = sample_fom_row_b.year_vtg ∨
            (p.year = 2100 ∧ 2100 < sample_fom_row_b.year_vtg)))) ∧
      sample_fom_row_b.value = p.fix_cost * (1 - 0.0025 : ℚ)
        ^ (sample_fom_row_b.year_act - sample_fom_row_b.year_vtg).toNat :=
  (createMessageInputs_fom_value_characterisation (by decide) sample_some
    sample_fom_row_b (mem_of_index sample_fom_row_b_mem)).2 (by decide)

/-- C3 (counterexample): on the sample projection (every fixed cost 1 —
in particular the anchor fixed cost at 2020 is 1 — and base year 2021) the
fixed-O&M record at vintage 1960 / activity 2025 has value
`1 * (1 - 0.0025)^65`: the decay exponent is counted from the vintage year
1960, not from the base year, so the value differs from
`fix(2020) * (1 - 0.0025)^(2025 - 2020)` (and from the base-year-2021
exponent variant).  Moreover the record at vintage 1960 / activity 2020
keeps the historical value 1, not `fix(1960) * (1 - 0.0025)^(2020 - 1960)`,
so reading the claimed formula with the vintage year as base fails as
well. -/
theorem createMessageInputs_fom_decay_counterexample :
    ∃ out, create_message_inputs 2021 sample_df = some out ∧
      (∀ p ∈ sample_df, p.fix_cost = 1) ∧
      (∃ r ∈ out.2, r.year_vtg = 1960 ∧ r.year_act = 2025 ∧
        r.value = 1 * (1 - 0.0025 : ℚ) ^ 65) ∧
      (∃ r ∈ out.2, r.year_vtg = 1960 ∧ r.year_act = 2020 ∧ r.value = 1) ∧
      1 * (1 - 0.0025 : ℚ) ^ 65 ≠ 1 * (1 - 0.0025 : ℚ) ^ 5 ∧
      1 * (1 - 0.0025 : ℚ) ^ 65 ≠ 1 * (1 - 0.0025 : ℚ) ^ 4 ∧
      (1 : ℚ) ≠ 1 * (1 - 0.0025 : ℚ) ^ 60 := by
  refine ⟨sample_out, sample_some, fun p hp => sample_df_fix_cost hp,
    ⟨_, mem_of_index sample_fom_row_b_mem, rfl, rfl, rfl⟩,
    ⟨_, mem_of_index sample_fom_row_a_mem, rfl, rfl, rfl⟩, ?_, ?_, ?_⟩
  all_goals norm_num

/-- C5 (counterexample): on the sample projection the fixed-O&M record at
vintage 1960 / activity 2105 (a year strictly after the final model year
2100) has value `1 * (1 - 0.0025)^145`, which differs from the value of
every record of the output at year 2100 — every fixed-O&M record with
activity year 2100 and every investment record with vintage 2100 — so
fixed-cost records for years after 2100 do not repeat the year-2100 value
(they continue the decay). -/
theorem createMessageInputs_post_2100_repeat_counterexample :
    ∃ out, create_message_inputs 2021 sample_df = some out ∧
      (∃ r ∈ out.2, r.year_vtg = 1960 ∧ r.year_act = 2105 ∧
        r.value = 1 * (1 - 0.0025 : ℚ) ^ 145) ∧
      (∀ q ∈ out.2, q.year_act = 2100 → q.value ≠ 1 * (1 - 0.0025 : ℚ) ^ 145) ∧
      (∀ q ∈ out.1, q.year_vtg = 2100 → q.value ≠ 1 * (1 - 0.0025 : ℚ) ^ 145) := by
  have h0 : (0 : ℚ) < 1 - 0.0025 := by norm_num
  have h1 : (1 - 0.0025 : ℚ) < 1 := by norm_num
  refine ⟨sample_out, sample_some,
    ⟨_, mem_of_index sample_fom_row_c_mem, rfl, rfl, rfl⟩, ?_, ?_⟩
  · intro q hq hact
    rcases cmi_mem_fom sample_some hq with ⟨g, _, y, hy, rows, hrows, hmem⟩
    rcases mem_fom_rows hrows hmem with ⟨hvtg, _, c, hc, hyc, hactc, _, _, _, _, hval⟩
    have hcy : c.year = 2100 := by omega
    rcases hval with ⟨hle, _⟩ | ⟨_, c0, hc0, _, _, hv⟩
    · omega
    · rcases mem_group_costs hc0 with ⟨p, hpdf, _, _, _, _, _, _, _, _, _, hcfv, _⟩
      rw [hv, hcfv, sample_df_fix_cost hpdf, one_mul, one_mul]
      have hylb : (1960 : Int) ≤ y := seq_years_lower_bound y hy
      have hexp : (c.year - y).toNat < 145 := by omega
      exact (pow_lt_pow_right_of_lt_one₀ h0 h1 hexp).ne'
  · intro q hq hvtg
    rcases cmi_mem_inv sample_some hq with ⟨g, _, hmem⟩
    rcases List.mem_map.mp hmem with ⟨c, hc, rfl⟩
    rcases mem_group_costs hc with ⟨p, hpdf, _, _, _, _, _, _, _, _, hciv, _, _⟩
    show c.inv_cost ≠ 1 * (1 - 0.0025 : ℚ) ^ 145
    rw [hciv, sample_df_inv_cost hpdf, one_mul]
    exact (pow_lt_one₀ (le_of_lt h0) h1 (by norm_num)).ne'

end CostsProj

